import Mathlib

/-!
Verification of the retrieval-index construction pipeline and staged-execution
model of the Github Multi-Agent RAG Assistant.

The development shallowly embeds the three Python source files
(`app.py`, `agents/repo_analyzer.py`, `agents/content_improver.py`).
External collaborators (git clone, the HuggingFace embedding model, the FAISS
vector store, the hosted LLM, the filesystem) appear as explicit parameters:
a collaborator call that can raise an exception is a value of `Except String α`,
and Python exception propagation is modelled by the `Except` error channel.

Components whose code lives in third-party libraries (the
`RecursiveCharacterTextSplitter` chunker, FAISS index construction, pydantic
validation, the LangGraph sequential executor) or in repository files absent
from the sources (the `MetadataRecommenderAgent`) are modelled from the spec;
each such definition carries a doc comment saying so.
-/

/-! ## Chunker

Modelled from the spec (section 4.1): the repository configures langchain's
`RecursiveCharacterTextSplitter` with `chunk_size=1000`, `chunk_overlap=200`
and separators from paragraph break down to character boundary
(`repo_analyzer.py`, lines 17-21); the splitter itself is library code, not
part of this repository's sources.  The model takes the separator-level unit
decomposition of a document as an input (a list of unit lengths, each unit
nonempty and at most `max_size` after the separator recursion has bottomed
out), greedily accumulates units until adding the next one would exceed
`max_size`, emits the accumulated segment as a chunk, and starts the next
segment by carrying back the trailing `overlap` characters of the emitted
segment (capped so the next segment cannot exceed `max_size`, per the
invariant of spec section 3).  A chunk is a span `(start, length)` of the
document, per the data model of spec section 3.  The guaranteed base
decomposition is the character-boundary one (`charUnits`), which `split_text`
uses. -/

def goChunks (M O : Nat) : Nat → Nat → List Nat → List (Nat × Nat)
  | s, l, [] => if l = 0 then [] else [(s, l)]
  | s, l, u :: us =>
    if l + u ≤ M then
      goChunks M O s (l + u) us
    else
      (s, l) :: goChunks M O (s + l - min O (M - u)) (min O (M - u) + u) us

/-- Split a document given as a unit-length decomposition, starting from the
empty segment at offset 0. -/
def splitUnits (M O : Nat) (units : List Nat) : List (Nat × Nat) :=
  goChunks M O 0 0 units

/-- The character-boundary unit decomposition: every character is one unit. -/
def charUnits (D : List Char) : List Nat :=
  D.map fun _ => 1

/-- Split a document at the character-boundary level. -/
def split_text (M O : Nat) (D : List Char) : List (Nat × Nat) :=
  splitUnits M O (charUnits D)

/-- The text of a chunk: the span of the document it designates. -/
def chunkText (D : List Char) (c : Nat × Nat) : List Char :=
  (D.drop c.1).take c.2

/-- The chain condition between consecutive chunks: the next chunk starts no
later than the previous chunk ends (overlap never negative) and no more than
`O` characters before it ends (overlap at most the configured size). -/
def chunkChainB (O : Nat) : List (Nat × Nat) → Bool
  | [] => true
  | [_] => true
  | (s1, l1) :: (s2, l2) :: rest =>
    decide (s2 ≤ s1 + l1) && decide (s1 + l1 - s2 ≤ O) && chunkChainB O ((s2, l2) :: rest)

/-- Concatenate the chunk texts after the first, each with the declared
overlap with its predecessor (previous end minus own start) removed. -/
def dropOverlapsFrom (D : List Char) (prevEnd : Nat) : List (Nat × Nat) → List Char
  | [] => []
  | c :: cs => (chunkText D c).drop (prevEnd - c.1) ++ dropOverlapsFrom D (c.1 + c.2) cs

/-- Concatenation of a chunk sequence with the declared overlaps removed. -/
def reconstruct (D : List Char) : List (Nat × Nat) → List Char
  | [] => []
  | c :: cs => chunkText D c ++ dropOverlapsFrom D (c.1 + c.2) cs

/-! ## Documents and file loading (`repo_analyzer.py`) -/

/-- A langchain document as this repository uses it: only `page_content` is
ever read (`app.py` line 44, `content_improver.py` line 30). -/
structure LCDocument where
  page_content : String
deriving DecidableEq, Repr

/-- Splitting a list of documents, as `text_splitter.split_documents` does
with the configuration of `repo_analyzer.py` lines 17-21: each document is
split independently and the chunk lists are concatenated in order. -/
def split_documents (M O : Nat) (docs : List LCDocument) : List LCDocument :=
  docs.flatMap fun d =>
    (split_text M O d.page_content.toList).map fun c =>
      ⟨String.mk (chunkText d.page_content.toList c)⟩

/-- The state of the three allow-listed files in the cloned working
directory (`repo_analyzer.py` line 44).  For each file: `none` means the
file does not exist; `some (.error e)` means it exists but `TextLoader.load`
raises with message `e`; `some (.ok t)` means it loads with content `t`. -/
structure FileSys where
  readme : Option (Except String String)
  mainpy : Option (Except String String)
  requirements : Option (Except String String)

/-- One iteration of the loading loop of `_load_and_split_files`
(`repo_analyzer.py` lines 46-54): a missing file is skipped; a loader
exception is caught and printed, and processing continues (the error is
recorded nowhere); a loaded file is appended to the document list. -/
def loadOne (entry : Option (Except String String)) (docs : List LCDocument) : List LCDocument :=
  match entry with
  | none => docs
  | some (.error _) => docs
  | some (.ok text) => docs ++ [⟨text⟩]

/-- The body of `RepoAnalyzerAgent._load_and_split_files`
(`repo_analyzer.py` lines 41-58): load README.md, main.py and
requirements.txt in that order, then split the loaded documents with the
configured splitter (chunk size 1000, overlap 200).  The function has no
error channel: it always returns a chunk list. -/
def load_and_split_files (fs : FileSys) : List LCDocument :=
  let docs := loadOne fs.requirements (loadOne fs.mainpy (loadOne fs.readme []))
  split_documents 1000 200 docs

/-! ## Workspace lifecycle (`RepoAnalyzerAgent.process_repo`) -/

/-- The fixed name of the directory `tempfile.mkdtemp` creates for a run
(`repo_analyzer.py` line 26). -/
def tempDirName : String := "repo_clone_0"

/-- The body of `RepoAnalyzerAgent.process_repo` together with the
`_clone_repo` call it makes (`repo_analyzer.py` lines 23-38 and 60-81).
The first component of the result is the Python return value or the
propagated exception; the second component is the list of directories that
exist when the caller observes that result.

The embedding follows the Python control flow statement by statement:
`temp_dir` starts as the empty string; `_clone_repo` first creates the
temporary directory via `mkdtemp` and then clones (`cloneResult`), raising a
`RuntimeError` on failure; only after `_clone_repo` returns is `temp_dir`
assigned the directory name; loading and splitting (`loadResult`, abstracting
lines 66-67, whose splitting step can raise) happens next; on both the normal
path and the `except` path the code removes `temp_dir` only if
`os.path.exists(temp_dir)` holds — and on the clone-failure path `temp_dir`
is still the empty string. -/
def process_repo (cloneResult : Except String Unit)
    (loadResult : Except String (List LCDocument)) :
    Except String (List LCDocument) × List String :=
  let fs0 : List String := [tempDirName]
  match cloneResult with
  | .error e =>
    let temp_dir := ""
    let fs1 := if fs0.contains temp_dir then fs0.erase temp_dir else fs0
    (.error ("Git Clone Failed. Check URL or Git PATH: " ++ e), fs1)
  | .ok _ =>
    let temp_dir := tempDirName
    match loadResult with
    | .ok chunks =>
      let fs1 := if fs0.contains temp_dir then fs0.erase temp_dir else fs0
      (.ok chunks, fs1)
    | .error e =>
      let fs1 := if fs0.contains temp_dir then fs0.erase temp_dir else fs0
      (.error e, fs1)

/-! ## Retriever construction (`RepoAnalyzerAgent.create_retriever`) -/

/-- A retriever as stage 1 returns it: a wrapper around the index entries,
each pairing a chunk with its embedding vector (spec section 3; vector
components are abstracted as integers, their values being irrelevant to the
claims). -/
structure Retriever where
  entries : List (LCDocument × List Int)
deriving DecidableEq

/-- The single error the repository raises from `create_retriever`
(`repo_analyzer.py` line 98). -/
inductive RAErr where
  | runtimeError (msg : String)
deriving DecidableEq

/-- The fixed message of that error. -/
def retrieverErrMsg : String :=
  "Failed to initialize embeddings model or retriever. Check network access for model download."

/-- Modelled from the spec (section 4.3): `FAISS.from_documents` is an
external library collaborator; the build embeds every chunk in order and
fails atomically, aborting at the first chunk whose embedding raises. -/
def faiss_from_documents (embed : LCDocument → Except String (List Int)) :
    List LCDocument → Except String (List (LCDocument × List Int))
  | [] => .ok []
  | c :: cs =>
    match embed c with
    | .error e => .error e
    | .ok v =>
      match faiss_from_documents embed cs with
      | .error e => .error e
      | .ok rest => .ok ((c, v) :: rest)

/-- The body of `RepoAnalyzerAgent.create_retriever` (`repo_analyzer.py`
lines 84-98): load the HuggingFace embedding model (`loadModel`, line 89),
build the FAISS store from the chunks (line 91), and return the retriever;
any exception from either step is caught by the single `except` clause and
re-raised as one `RuntimeError` with the fixed message of line 98. -/
def create_retriever (loadModel : Except String Unit)
    (embed : LCDocument → Except String (List Int)) (chunks : List LCDocument) :
    Except RAErr Retriever :=
  match loadModel with
  | .error _ => .error (.runtimeError retrieverErrMsg)
  | .ok _ =>
    match faiss_from_documents embed chunks with
    | .error _ => .error (.runtimeError retrieverErrMsg)
    | .ok entries => .ok ⟨entries⟩

/-! ## Content improver (`content_improver.py`) -/

/-- A JSON-like value as it appears in the dictionaries this repository
returns and in raw model output. -/
inductive JVal where
  | str (s : String)
  | arr (elems : List JVal)

/-- A Python dictionary with string keys, as returned by
`generate_improved_content`. -/
abbrev PyDict := List (String × JVal)

/-- The `ContentSuggestions` pydantic model (`content_improver.py`
lines 9-13): three fields.  The `Field(description=...)` annotations attach
human-readable descriptions only; they impose no validation constraint. -/
structure ContentSuggestions where
  new_title : String
  short_summary : String
  readme_edits : List String
deriving DecidableEq

/-- Field lookup in a raw model output. -/
def getField (raw : PyDict) (k : String) : Option JVal :=
  (raw.find? fun p => p.1 == k).map Prod.snd

/-- Coerce a JSON value to a string, if it is one. -/
def asStr : JVal → Option String
  | .str s => some s
  | _ => none

/-- Coerce a JSON value to a list of strings, if it is one. -/
def asStrList : JVal → Option (List String)
  | .arr l => l.foldr (fun v acc => do pure ((← asStr v) :: (← acc))) (some [])
  | _ => none

/-- Modelled from pydantic semantics of the `ContentSuggestions` declaration
(`content_improver.py` lines 9-13): validation of a raw model output checks
that each declared field is present and has the declared type — `new_title`
and `short_summary` strings, `readme_edits` a list of strings.  A
`Field(description=...)` argument documents the field but validates nothing,
so no length constraint applies to any field. -/
def validateSuggestions (raw : PyDict) : Except String ContentSuggestions :=
  match getField raw "new_title" with
  | none => .error "new_title: Field required"
  | some v1 =>
    match asStr v1 with
    | none => .error "new_title: Input should be a valid string"
    | some t =>
      match getField raw "short_summary" with
      | none => .error "short_summary: Field required"
      | some v2 =>
        match asStr v2 with
        | none => .error "short_summary: Input should be a valid string"
        | some su =>
          match getField raw "readme_edits" with
          | none => .error "readme_edits: Field required"
          | some v3 =>
            match asStrList v3 with
            | none => .error "readme_edits: Input should be a valid list of strings"
            | some ed => .ok ⟨t, su, ed⟩

/-- Modelled from the spec's words, for comparison with the code: the schema
the claim describes, under which `readme_edits` must be a list of 3 to 5
strings (spec sections 6 and 8). -/
def specValidOutput (raw : PyDict) : Bool :=
  match validateSuggestions raw with
  | .error _ => false
  | .ok s => decide (3 ≤ s.readme_edits.length) && decide (s.readme_edits.length ≤ 5)

/-- The dictionary returned on a `ValidationError`
(`content_improver.py` line 165). -/
def validationErrorDict (details : String) : PyDict :=
  [("error", .str "LLM output validation failed."), ("details", .str details)]

/-- The dictionary returned on a general API or network exception
(`content_improver.py` line 169). -/
def apiErrorDict (details : String) : PyDict :=
  [("error", .str "Failed to connect to OpenRouter or receive response."), ("details", .str details)]

/-- The dictionary `response.dict()` produces on success
(`content_improver.py` line 160). -/
def suggestionsDict (s : ContentSuggestions) : PyDict :=
  [("new_title", .str s.new_title), ("short_summary", .str s.short_summary),
   ("readme_edits", .arr (s.readme_edits.map JVal.str))]

/-- The body of `ContentImproverAgent.generate_improved_content`
(`content_improver.py` lines 124-169).  `retrieveResult` is the outcome of
`self.retriever.invoke(...)` (line 127), which runs before the `try` block:
if it raises, the exception propagates to the caller.  `callResult` is the
outcome of the structured LLM call inside the `try` block: an API or network
exception (`.error`) is caught by the generic `except` clause and turned
into `apiErrorDict`; a returned raw output is validated against
`ContentSuggestions`, a `ValidationError` being caught and turned into
`validationErrorDict`, and a valid output returned as `suggestionsDict`. -/
def generate_improved_content (retrieveResult : Except String (List String))
    (callResult : Except String PyDict) : Except String PyDict :=
  match retrieveResult with
  | .error e => .error e
  | .ok _ =>
    match callResult with
    | .error e => .ok (apiErrorDict e)
    | .ok raw =>
      match validateSuggestions raw with
      | .ok s => .ok (suggestionsDict s)
      | .error d => .ok (validationErrorDict d)

/-! ## The pipeline (`app.py`) -/

/-- The shared graph state (`app.py` lines 18-25).  Fields other than the
input URL start absent and are written by the stages. -/
structure AgentState where
  repo_url : String
  original_content : Option String := none
  chunks : Option (List LCDocument) := none
  retriever : Option Retriever := none
  metadata : Option PyDict := none
  improved_content : Option PyDict := none

/-- The collaborator outcomes one pipeline run is exposed to.
`processResult` abstracts `RepoAnalyzerAgent.process_repo`; `loadModel` and
`embed` feed `create_retriever`; `metadataResult` abstracts
`MetadataRecommenderAgent.suggest_metadata` (modelled from the spec: that
agent's file is imported by `app.py` line 11 but absent from the sources —
per spec section 6 it is a downstream collaborator consuming the full text
and producing a metadata mapping, so its outcome is a parameter);
`retrieveResult` and `callResult` feed `generate_improved_content`. -/
structure RunParams where
  repo_url : String
  processResult : Except String (List LCDocument)
  loadModel : Except String Unit
  embed : LCDocument → Except String (List Int)
  metadataResult : Except String PyDict
  retrieveResult : Except String (List String)
  callResult : Except String PyDict

/-- The initial graph state: only the caller-supplied URL
(`app.py` line 146). -/
def initialState (p : RunParams) : AgentState :=
  { repo_url := p.repo_url }

/-- Render the error raised out of `analyze_repo_node` when
`create_retriever` fails (the `RuntimeError` is not caught there). -/
def raErrMsg : RAErr → String
  | .runtimeError m => m

/-- Joining the chunk texts as `app.py` line 44 does. -/
def joinChunks (chunks : List LCDocument) : String :=
  String.intercalate "\n\n" (chunks.map LCDocument.page_content)

/-- The body of `analyze_repo_node` (`app.py` lines 28-51).  The `try` block
wraps only `process_repo`: its exception is replaced by
`ValueError("RepoAnalyzer failed.")`.  An empty chunk list raises the same
`ValueError` before `create_retriever` is called.  Otherwise the retriever
is built (a `RuntimeError` from it propagates uncaught) and the node returns
its field updates, which LangGraph merges into the shared state.  The second
component records whether `create_retriever` was invoked. -/
def analyze_repo_node (p : RunParams) (s : AgentState) :
    (Except String AgentState) × Bool :=
  match p.processResult with
  | .error _ => (.error "RepoAnalyzer failed.", false)
  | .ok chunks =>
    if chunks.isEmpty then
      (.error "RepoAnalyzer failed.", false)
    else
      match create_retriever p.loadModel p.embed chunks with
      | .error e => (.error (raErrMsg e), true)
      | .ok r =>
        (.ok { s with
                original_content := some (joinChunks chunks)
                chunks := some chunks
                retriever := some r }, true)

/-- The body of `recommend_metadata_node` (`app.py` lines 53-62): reads
`state['original_content']` (a `KeyError` if absent), calls the metadata
agent (an exception propagates), and writes the `metadata` field. -/
def recommend_metadata_node (p : RunParams) (s : AgentState) :
    Except String AgentState :=
  match s.original_content with
  | none => .error "KeyError: original_content"
  | some _ =>
    match p.metadataResult with
    | .error e => .error e
    | .ok md => .ok { s with metadata := some md }

/-- The body of `improve_content_node` (`app.py` lines 64-77): reads
`original_content`, `metadata` and `retriever` from the state (a `KeyError`
if absent), calls `generate_improved_content` (an exception propagates), and
writes the `improved_content` field. -/
def improve_content_node (p : RunParams) (s : AgentState) :
    Except String AgentState :=
  match s.original_content, s.metadata, s.retriever with
  | some _, some _, some _ =>
    match generate_improved_content p.retrieveResult p.callResult with
    | .error e => .error e
    | .ok d => .ok { s with improved_content := some d }
  | _, _, _ => .error "KeyError: missing state field"

/-- Modelled from the spec (section 4.6) and the LangGraph edge list of
`create_graph` (`app.py` lines 80-93): the compiled sequential graph runs
its nodes in edge order on the shared state; a node that raises aborts the
run and the exception propagates out of `invoke`, so no state is returned.
The second component records the names of the nodes that started
executing. -/
def runSeq : List (String × (AgentState → Except String AgentState)) → AgentState →
    (Except String AgentState) × List String
  | [], s => (.ok s, [])
  | (n, f) :: rest, s =>
    match f s with
    | .error e => (.error e, [n])
    | .ok s2 =>
      let r := runSeq rest s2
      (r.1, n :: r.2)

/-- The node list of `create_graph` (`app.py` lines 80-93): the linear chain
analyze_repo, recommend_metadata, improve_content. -/
def create_graph (p : RunParams) : List (String × (AgentState → Except String AgentState)) :=
  [("analyze_repo", fun s => (analyze_repo_node p s).1),
   ("recommend_metadata", recommend_metadata_node p),
   ("improve_content", improve_content_node p)]

/-- One pipeline run: `app.invoke(inputs)` (`app.py` line 152) on the
initial state. -/
def runGraph (p : RunParams) : (Except String AgentState) × List String :=
  runSeq (create_graph p) (initialState p)

/-! ## Chunker lemmas -/

/-- A segment in progress is never lost: splitting from a nonempty segment
yields at least one chunk. -/
theorem goChunks_ne_nil (M O : Nat) :
    ∀ us s l, 0 < l → goChunks M O s l us ≠ [] := by
  intro us
  induction us with
  | nil =>
    intro s l hl
    simp [goChunks, Nat.pos_iff_ne_zero.mp hl]
  | cons u us ih =>
    intro s l hl
    by_cases h : l + u ≤ M
    · simpa [goChunks, if_pos h] using ih s (l + u) (by omega)
    · simp [goChunks, if_neg h]

/-- The first chunk emitted starts at the current segment's start and is at
least as long as the current segment. -/
theorem goChunks_head (M O : Nat) :
    ∀ us s l, goChunks M O s l us = [] ∨
      ∃ l2 cs, goChunks M O s l us = (s, l2) :: cs ∧ l ≤ l2 := by
  intro us
  induction us with
  | nil =>
    intro s l
    by_cases h : l = 0
    · left; simp [goChunks, h]
    · right; exact ⟨l, [], by simp [goChunks, h], Nat.le_refl l⟩
  | cons u us ih =>
    intro s l
    by_cases h : l + u ≤ M
    · rcases ih s (l + u) with h1 | ⟨l2, cs, h1, h2⟩
      · left; simp [goChunks, if_pos h, h1]
      · right; exact ⟨l2, cs, by simp [goChunks, if_pos h, h1], by omega⟩
    · right
      exact ⟨l, goChunks M O (s + l - min O (M - u)) (min O (M - u) + u) us,
        by rw [goChunks, if_neg h], Nat.le_refl l⟩

/-- Every emitted chunk is nonempty and fits within `M`, provided every unit
is nonempty and fits within `M` and the segment in progress fits. -/
theorem goChunks_bounds (M O : Nat) :
    ∀ us s l, (∀ u ∈ us, 0 < u ∧ u ≤ M) → l ≤ M →
      ∀ c ∈ goChunks M O s l us, 0 < c.2 ∧ c.2 ≤ M := by
  intro us
  induction us with
  | nil =>
    intro s l _ hl c hc
    by_cases h : l = 0
    · simp [goChunks, h] at hc
    · simp [goChunks, h] at hc
      rcases hc with rfl
      exact ⟨Nat.pos_of_ne_zero h, hl⟩
  | cons u us ih =>
    intro s l hus hl c hc
    have hu := hus u (List.mem_cons_self u us)
    have hus2 : ∀ v ∈ us, 0 < v ∧ v ≤ M := fun v hv => hus v (List.mem_cons_of_mem u hv)
    by_cases h : l + u ≤ M
    · rw [goChunks, if_pos h] at hc
      exact ih s (l + u) hus2 h c hc
    · rw [goChunks, if_neg h] at hc
      rcases List.mem_cons.mp hc with rfl | hc2
      · exact ⟨by omega, hl⟩
      · exact ih _ _ hus2 (by omega) c hc2

/-- The chunk sequence satisfies the chain condition for the configured
overlap: each chunk starts no later than its predecessor ends, and the
declared overlap is at most `O`. -/
theorem goChunks_chain (M O : Nat) :
    ∀ us s l, chunkChainB O (goChunks M O s l us) = true := by
  intro us
  induction us with
  | nil =>
    intro s l
    by_cases h : l = 0 <;> simp [goChunks, h, chunkChainB]
  | cons u us ih =>
    intro s l
    by_cases h : l + u ≤ M
    · rw [goChunks, if_pos h]; exact ih s (l + u)
    · rw [goChunks, if_neg h]
      rcases goChunks_head M O us (s + l - min O (M - u)) (min O (M - u) + u) with
        h1 | ⟨l2, cs, h1, _⟩
      · rw [h1]; simp [chunkChainB]
      · rw [h1]
        have hchain : chunkChainB O ((s + l - min O (M - u), l2) :: cs) = true := by
          rw [← h1]; exact ih _ _
        simp only [chunkChainB, hchain, Bool.and_true, Bool.and_eq_true, decide_eq_true_eq]
        omega

/-- Reconstruction: splitting from a nonempty in-progress segment and then
removing the declared overlaps yields exactly the document span the segment
and the remaining units cover. -/
theorem goChunks_reconstruct (M O : Nat) (D : List Char) :
    ∀ us s l, (∀ u ∈ us, 0 < u ∧ u ≤ M) → 0 < l → l ≤ M →
      s + l + us.sum ≤ D.length →
      reconstruct D (goChunks M O s l us) = (D.drop s).take (l + us.sum) := by
  intro us
  induction us with
  | nil =>
    intro s l _ hl _ _
    rw [goChunks, if_neg (Nat.pos_iff_ne_zero.mp hl)]
    simp [reconstruct, dropOverlapsFrom, chunkText]
  | cons u us ih =>
    intro s l hus hl hlM hD
    have hu := hus u (List.mem_cons_self u us)
    have hus2 : ∀ v ∈ us, 0 < v ∧ v ≤ M := fun v hv => hus v (List.mem_cons_of_mem u hv)
    rw [List.sum_cons] at hD ⊢
    by_cases h : l + u ≤ M
    · rw [goChunks, if_pos h]
      rw [ih s (l + u) hus2 (by omega) h (by omega)]
      congr 1
      omega
    · rw [goChunks, if_neg h]
      set c := min O (M - u) with hc
      have hcMu : c ≤ M - u := Nat.min_le_right O (M - u)
      have hcl : c < l := by omega
      set s2 := s + l - c with hs2
      set l2 := c + u with hl2
      have hrec := ih s2 l2 hus2 (by omega) (by omega) (by omega)
      rcases goChunks_head M O us s2 l2 with hnil | ⟨l3, cs, hhead, hl3⟩
      · exact absurd hnil (goChunks_ne_nil M O us s2 l2 (by omega))
      · rw [hhead]
        rw [hhead] at hrec
        simp only [reconstruct, dropOverlapsFrom] at hrec ⊢
        have hdrop : (s + l) - s2 = c := by omega
        have hXlen : c ≤ (chunkText D (s2, l3)).length := by
          simp only [chunkText, List.length_take, List.length_drop]
          omega
        have step1 : (chunkText D (s2, l3)).drop ((s + l) - s2) ++
            dropOverlapsFrom D ((s2, l3).1 + (s2, l3).2) cs =
            ((chunkText D (s2, l3) ++
              dropOverlapsFrom D ((s2, l3).1 + (s2, l3).2) cs)).drop c := by
          rw [hdrop, List.drop_append_of_le_length hXlen]
        rw [step1, hrec]
        have step2 : ((D.drop s2).take (l2 + us.sum)).drop c =
            ((D.drop s2).drop c).take (l2 + us.sum - c) := List.drop_take ..
        rw [step2, List.drop_drop]
        have hidx : s2 + c = s + l := by omega
        have hlen2 : l2 + us.sum - c = u + us.sum := by omega
        rw [hidx, hlen2]
        have step3 : (D.drop s).take (l + (u + us.sum)) =
            (D.drop s).take l ++ ((D.drop s).drop l).take (u + us.sum) :=
          List.take_add ..
        rw [step3, List.drop_drop]
        rfl

/-- Summing the character units gives the document length. -/
theorem charUnits_sum (D : List Char) : (charUnits D).sum = D.length := by
  induction D with
  | nil => rfl
  | cons a as ih =>
    simp only [charUnits, List.map_cons, List.sum_cons, List.length_cons] at ih ⊢
    omega

/-- C4: with the fixed configuration chunk_size 1000 and chunk_overlap 200
(`repo_analyzer.py` lines 17-21), every chunk the splitter produces has
length strictly greater than 0 and at most 1000, and between any two
consecutive chunks of a document the overlap is never negative (the next
chunk starts no later than the previous one ends) and spans at most 200
characters. -/
theorem c4_chunk_bounds (D : List Char) :
    ((split_text 1000 200 D).all fun c => decide (0 < c.2) && decide (c.2 ≤ 1000)) = true ∧
    chunkChainB 200 (split_text 1000 200 D) = true := by
  constructor
  · rw [List.all_eq_true]
    intro c hc
    have hus : ∀ u ∈ charUnits D, 0 < u ∧ u ≤ 1000 := by
      intro u hu
      simp only [charUnits, List.mem_map] at hu
      obtain ⟨_, _, rfl⟩ := hu
      omega
    have hc2 : c ∈ goChunks 1000 200 0 0 (charUnits D) := hc
    have hb := goChunks_bounds 1000 200 (charUnits D) 0 0 hus (by omega) c hc2
    simp only [Bool.and_eq_true, decide_eq_true_eq]
    exact hb
  · exact goChunks_chain 1000 200 (charUnits D) 0 0

/-- C5: for every document and every chunk configuration with a positive
chunk size, concatenating the chunk sequence with the declared overlaps
removed reconstructs the document exactly — no content is lost and nothing
is duplicated beyond the declared overlap window. -/
theorem c5_reconstruct_exact (D : List Char) (M O : Nat) (hM : 0 < M) :
    reconstruct D (split_text M O D) = D := by
  cases D with
  | nil => rfl
  | cons a as =>
    have hstep : split_text M O (a :: as) = goChunks M O 0 1 (charUnits as) := by
      show goChunks M O 0 0 (1 :: charUnits as) = _
      rw [goChunks, if_pos (show 0 + 1 ≤ M by omega)]
    rw [hstep]
    have hus : ∀ u ∈ charUnits as, 0 < u ∧ u ≤ M := by
      intro u hu
      simp only [charUnits, List.mem_map] at hu
      obtain ⟨_, _, rfl⟩ := hu
      omega
    rw [goChunks_reconstruct M O (a :: as) (charUnits as) 0 1 hus (by omega) hM
      (by rw [charUnits_sum]; simp only [List.length_cons]; omega)]
    have hlen : (a :: as).length ≤ 1 + (charUnits as).sum := by
      rw [charUnits_sum]
      simp only [List.length_cons]
      omega
    rw [List.drop_zero]
    exact List.take_of_length_le hlen

/-- Witness for c5_reconstruct_exact: the theorem applied at a concrete
document and configuration, with the hypothesis discharged. -/
theorem c5_reconstruct_exact_witness :
    reconstruct "abcdefghijk".toList (split_text 5 2 "abcdefghijk".toList) =
      "abcdefghijk".toList :=
  c5_reconstruct_exact "abcdefghijk".toList 5 2 (by decide)

/-! ## Claim theorems: workspace lifecycle, index construction, loading -/

/-- C2: evaluation at the failing input.  When cloning itself fails, the
`except` clause of `process_repo` sees `temp_dir` still bound to the empty
string (it is assigned the directory path only after `_clone_repo` returns),
so the directory created by `mkdtemp` is NOT removed: the caller observes
the failure while the directory still exists.  On the load-failure path and
on normal completion the directory is removed, as the docstring of
`process_repo` ("ensuring cleanup") and its comment ("Try to clean up on
failure before re-raising") intend for every path. -/
theorem c2_clone_failure_leaks_tempdir :
    (process_repo (.error "repository not found") (.ok [])).2 = [tempDirName] ∧
    (process_repo (.error "repository not found") (.ok [])).1 =
      .error "Git Clone Failed. Check URL or Git PATH: repository not found" ∧
    (process_repo (.ok ()) (.error "split failure")).2 = [] ∧
    (process_repo (.ok ()) (.ok [])).2 = [] :=
  ⟨rfl, rfl, rfl, rfl⟩

/-- Every successfully built index contains exactly the input chunks, in
order. -/
theorem faiss_from_documents_ok (embed : LCDocument → Except String (List Int)) :
    ∀ chunks entries, faiss_from_documents embed chunks = .ok entries →
      entries.map Prod.fst = chunks := by
  intro chunks
  induction chunks with
  | nil =>
    intro entries h
    rw [faiss_from_documents] at h
    cases h
    rfl
  | cons c cs ih =>
    intro entries h
    rw [faiss_from_documents] at h
    cases hv : embed c with
    | error e => rw [hv] at h; cases h
    | ok v =>
      rw [hv] at h
      cases hrest : faiss_from_documents embed cs with
      | error e => rw [hrest] at h; cases h
      | ok rest =>
        rw [hrest] at h
        cases h
        simp only [List.map_cons]
        rw [ih rest hrest]

/-- C3: index construction is atomic: whenever `create_retriever` returns a
retriever (rather than raising), its index pairs every input chunk with a
vector, in the original order — there is no execution that returns a
partially-filled index. -/
theorem c3_create_retriever_atomic (loadModel : Except String Unit)
    (embed : LCDocument → Except String (List Int)) (chunks : List LCDocument)
    (r : Retriever) (h : create_retriever loadModel embed chunks = .ok r) :
    r.entries.map Prod.fst = chunks ∧ r.entries.length = chunks.length := by
  cases loadModel with
  | error e => rw [create_retriever] at h; cases h
  | ok _ =>
    rw [create_retriever] at h
    cases hf : faiss_from_documents embed chunks with
    | error e => rw [hf] at h; cases h
    | ok entries =>
      rw [hf] at h
      cases h
      have hmap := faiss_from_documents_ok embed chunks entries hf
      exact ⟨hmap, by rw [← hmap, List.length_map]⟩

/-- A concrete chunk used by witnesses. -/
def docW : LCDocument := ⟨"README contents"⟩

/-- Witness for c3_create_retriever_atomic at a concrete build. -/
theorem c3_create_retriever_atomic_witness :
    (Retriever.mk [(docW, [0])]).entries.map Prod.fst = [docW] ∧
    (Retriever.mk [(docW, [0])]).entries.length = [docW].length :=
  c3_create_retriever_atomic (.ok ()) (fun _ => .ok [0]) [docW] ⟨[(docW, [0])]⟩ rfl

/-- C7 counterexample: a model-load failure and a per-chunk embedding
failure produce the very same reported error (the single `RuntimeError`
with the fixed message of `repo_analyzer.py` line 98), so a caller of a
failing build cannot tell which of the two failure modes occurred. -/
theorem c7_counterexample :
    create_retriever (.error "model download failed") (fun _ => .ok [0]) [docW] =
      create_retriever (.ok ()) (fun _ => .error "embedding inference failed") [docW] ∧
    create_retriever (.error "model download failed") (fun _ => .ok [0]) [docW] =
      .error (.runtimeError retrieverErrMsg) :=
  ⟨rfl, rfl⟩

/-- C7 amended: every failing index construction — whether the embedding
model failed to load or a specific chunk failed to embed — is reported as
the one collapsed `RuntimeError` with the fixed message of
`repo_analyzer.py` line 98; the two failure modes are not distinguished. -/
theorem c7_failures_collapse_to_one_error (loadModel : Except String Unit)
    (embed : LCDocument → Except String (List Int)) (chunks : List LCDocument)
    (e : RAErr) (h : create_retriever loadModel embed chunks = .error e) :
    e = .runtimeError retrieverErrMsg := by
  cases loadModel with
  | error _ => rw [create_retriever] at h; cases h; rfl
  | ok _ =>
    rw [create_retriever] at h
    cases hf : faiss_from_documents embed chunks with
    | error _ => rw [hf] at h; cases h; rfl
    | ok entries => rw [hf] at h; cases h

/-- Witness for c7_failures_collapse_to_one_error at a concrete failing
build. -/
theorem c7_failures_collapse_to_one_error_witness :
    RAErr.runtimeError retrieverErrMsg = RAErr.runtimeError retrieverErrMsg :=
  c7_failures_collapse_to_one_error (.error "model download failed") (fun _ => .ok [0])
    [docW] (.runtimeError retrieverErrMsg) rfl

/-- C8 counterexample: README.md exists but its loader raises; the function
returns normally with the chunks of the remaining files, and the result is
identical to the run in which README.md does not exist at all — the loader
error is discarded while processing continues, and nothing about it reaches
the caller. -/
theorem c8_counterexample :
    load_and_split_files ⟨some (.error "utf-8 decode error"), some (.ok "print(1)"), none⟩ =
      load_and_split_files ⟨none, some (.ok "print(1)"), none⟩ ∧
    load_and_split_files ⟨some (.error "utf-8 decode error"), some (.ok "print(1)"), none⟩ =
      [⟨"print(1)"⟩] :=
  ⟨rfl, rfl⟩

/-- C8 amended: a loader failure on any individual allow-listed file is
caught and only logged; processing continues with the remaining files and
the returned chunk list is exactly the one obtained if that file were
absent, so the error is silently swallowed, never surfaced to the caller. -/
theorem c8_load_errors_swallowed (e : String) (a b : Option (Except String String)) :
    load_and_split_files ⟨some (.error e), a, b⟩ = load_and_split_files ⟨none, a, b⟩ ∧
    load_and_split_files ⟨a, some (.error e), b⟩ = load_and_split_files ⟨a, none, b⟩ ∧
    load_and_split_files ⟨a, b, some (.error e)⟩ = load_and_split_files ⟨a, b, none⟩ :=
  ⟨rfl, rfl, rfl⟩

/-! ## Claim theorems: content improver -/

/-- A raw model output with an empty `readme_edits` list. -/
def rawEmptyEdits : PyDict :=
  [("new_title", .str ""), ("short_summary", .str "A compelling summary."),
   ("readme_edits", .arr [])]

/-- C6 counterexample: a model output whose `readme_edits` list is empty
fails the schema the claim describes (a list of 3 to 5 strings), yet
`generate_improved_content` accepts it — pydantic validates field presence
and types only, because `Field(description=...)` imposes no length
constraint — and returns the ordinary suggestions dictionary, which carries
no `error` key, rather than an `{error, details}` dictionary. -/
theorem c6_counterexample :
    specValidOutput rawEmptyEdits = false ∧
    generate_improved_content (.ok []) (.ok rawEmptyEdits) =
      .ok (suggestionsDict ⟨"", "A compelling summary.", []⟩) ∧
    getField (suggestionsDict ⟨"", "A compelling summary.", []⟩) "error" = none :=
  ⟨rfl, rfl, rfl⟩

/-- C6 amended: for every model output that fails the schema the code
actually enforces — presence of the three declared fields with the declared
types; the 3-to-5 bound on `readme_edits` lives only in the human-readable
field description and is not validated — `generate_improved_content`
returns the `{error, details}` dictionary of `content_improver.py` line 165
identifying the failure, and never propagates the validation failure as a
crash. -/
theorem c6_validation_failure_returns_error_dict (docs : List String) (raw : PyDict)
    (d : String) (h : validateSuggestions raw = .error d) :
    generate_improved_content (.ok docs) (.ok raw) = .ok (validationErrorDict d) := by
  simp [generate_improved_content, h]

/-- Witness for c6_validation_failure_returns_error_dict: a raw output
missing every field. -/
theorem c6_validation_failure_returns_error_dict_witness :
    generate_improved_content (.ok []) (.ok []) =
      .ok (validationErrorDict "new_title: Field required") :=
  c6_validation_failure_returns_error_dict [] [] "new_title: Field required" rfl

/-- C10 counterexample: the call `self.retriever.invoke(...)` at
`content_improver.py` line 127 runs before the `try` block, so when it
raises, `generate_improved_content` propagates the exception to its caller
instead of returning a dictionary. -/
theorem c10_counterexample :
    generate_improved_content
        (.error "embedding model unavailable while embedding the query")
        (.ok rawEmptyEdits) =
      .error "embedding model unavailable while embedding the query" :=
  rfl

/-- C10 amended: `generate_improved_content` is total only past its
retrieval step: whenever the context retrieval of line 127 succeeds, every
outcome of the structured LLM call — a valid output, a validation failure,
or an API/network failure — results in a returned dictionary and no
exception; an exception raised by the retrieval step itself propagates to
the caller. -/
theorem c10_total_after_retrieval (docs : List String) (call : Except String PyDict) :
    ∃ d : PyDict, generate_improved_content (.ok docs) call = .ok d := by
  cases call with
  | error e => exact ⟨apiErrorDict e, rfl⟩
  | ok raw =>
    cases hv : validateSuggestions raw with
    | ok s => exact ⟨suggestionsDict s, by simp [generate_improved_content, hv]⟩
    | error d => exact ⟨validationErrorDict d, by simp [generate_improved_content, hv]⟩

/-! ## Claim theorems: the pipeline -/

/-- A successful stage 1 writes the content, chunk and retriever fields. -/
theorem analyze_ok_fields (p : RunParams) (s s1 : AgentState)
    (h : (analyze_repo_node p s).1 = .ok s1) :
    s1.original_content.isSome ∧ s1.retriever.isSome := by
  cases hp : p.processResult with
  | error e => simp [analyze_repo_node, hp] at h
  | ok chunks =>
    by_cases he : chunks.isEmpty
    · simp [analyze_repo_node, hp, he] at h
    · cases hr : create_retriever p.loadModel p.embed chunks with
      | error e => simp [analyze_repo_node, hp, he, hr] at h
      | ok r =>
        simp [analyze_repo_node, hp, he, hr] at h
        subst h
        exact ⟨rfl, rfl⟩

/-- A successful stage 2 writes the metadata field and preserves the
earlier fields. -/
theorem recommend_ok_fields (p : RunParams) (s s2 : AgentState)
    (h : recommend_metadata_node p s = .ok s2) :
    s2.metadata.isSome ∧ s2.original_content = s.original_content ∧
      s2.retriever = s.retriever := by
  cases ho : s.original_content with
  | none => simp [recommend_metadata_node, ho] at h
  | some oc =>
    cases hm : p.metadataResult with
    | error e => simp [recommend_metadata_node, ho, hm] at h
    | ok md =>
      simp [recommend_metadata_node, ho, hm] at h
      subst h
      simp [ho]

/-- A successful stage 3 writes the improved-content field and preserves the
earlier fields. -/
theorem improve_ok_fields (p : RunParams) (s s3 : AgentState)
    (h : improve_content_node p s = .ok s3) :
    s3.improved_content.isSome ∧ s3.original_content = s.original_content ∧
      s3.retriever = s.retriever ∧ s3.metadata = s.metadata := by
  cases ho : s.original_content with
  | none => simp [improve_content_node, ho] at h
  | some oc =>
    cases hm : s.metadata with
    | none => simp [improve_content_node, ho, hm] at h
    | some md =>
      cases hr : s.retriever with
      | none => simp [improve_content_node, ho, hm, hr] at h
      | some r =>
        cases hg : generate_improved_content p.retrieveResult p.callResult with
        | error e => simp [improve_content_node, ho, hm, hr, hg] at h
        | ok d =>
          simp [improve_content_node, ho, hm, hr, hg] at h
          subst h
          simp [ho, hm, hr]

/-- C1: the three-stage chain is fail-fast: the first stage to fail aborts
the run, no later stage executes, and the caller receives the failure — a
success result is only ever the full state with every stage's fields
populated, never a partial state. -/
theorem c1_pipeline_fail_fast (p : RunParams) :
    (∀ e, (analyze_repo_node p (initialState p)).1 = .error e →
      runGraph p = (.error e, ["analyze_repo"])) ∧
    (∀ s1 e, (analyze_repo_node p (initialState p)).1 = .ok s1 →
      recommend_metadata_node p s1 = .error e →
      runGraph p = (.error e, ["analyze_repo", "recommend_metadata"])) ∧
    (∀ s1 s2 e, (analyze_repo_node p (initialState p)).1 = .ok s1 →
      recommend_metadata_node p s1 = .ok s2 →
      improve_content_node p s2 = .error e →
      runGraph p = (.error e, ["analyze_repo", "recommend_metadata", "improve_content"])) ∧
    (∀ s, (runGraph p).1 = .ok s →
      s.original_content.isSome ∧ s.retriever.isSome ∧ s.metadata.isSome ∧
        s.improved_content.isSome) := by
  refine ⟨?_, ?_, ?_, ?_⟩
  · intro e h1
    simp [runGraph, create_graph, runSeq, h1]
  · intro s1 e h1 h2
    simp [runGraph, create_graph, runSeq, h1, h2]
  · intro s1 s2 e h1 h2 h3
    simp [runGraph, create_graph, runSeq, h1, h2, h3]
  · intro s h
    cases h1 : (analyze_repo_node p (initialState p)).1 with
    | error e => simp [runGraph, create_graph, runSeq, h1] at h
    | ok s1 =>
      cases h2 : recommend_metadata_node p s1 with
      | error e => simp [runGraph, create_graph, runSeq, h1, h2] at h
      | ok s2 =>
        cases h3 : improve_content_node p s2 with
        | error e => simp [runGraph, create_graph, runSeq, h1, h2, h3] at h
        | ok s3 =>
          have hs : s3 = s := by
            simp [runGraph, create_graph, runSeq, h1, h2, h3] at h
            exact h
          obtain ⟨ha1, ha2⟩ := analyze_ok_fields p (initialState p) s1 h1
          obtain ⟨hb1, hb2, hb3⟩ := recommend_ok_fields p s1 s2 h2
          obtain ⟨hc1, hc2, hc3, hc4⟩ := improve_ok_fields p s2 s3 h3
          rw [← hs]
          refine ⟨?_, ?_, ?_, hc1⟩
          · rw [hc2, hb2]; exact ha1
          · rw [hc3, hb3]; exact ha2
          · rw [hc4]; exact hb1

/-- Concrete parameters for the c1 witness: stage 1 succeeds, the metadata
agent of stage 2 fails. -/
def paramsMetaFail : RunParams :=
  { repo_url := "https://github.com/u/r"
    processResult := .ok [docW]
    loadModel := .ok ()
    embed := fun _ => .ok [0, 1]
    metadataResult := .error "metadata agent crashed"
    retrieveResult := .ok []
    callResult := .ok rawEmptyEdits }

/-- Witness for c1_pipeline_fail_fast: with stage 2 failing concretely,
stage 3 never runs and the caller receives the failure. -/
theorem c1_pipeline_fail_fast_witness :
    runGraph paramsMetaFail =
      (.error "metadata agent crashed", ["analyze_repo", "recommend_metadata"]) :=
  (c1_pipeline_fail_fast paramsMetaFail).2.1 _ "metadata agent crashed" rfl rfl

/-- C9: if stage 1's repository processing yields an empty chunk list, the
node raises `ValueError("RepoAnalyzer failed.")` before `create_retriever`
is ever invoked (the second component of the node's result records whether
it was), the run aborts with that failure, and the later stages never
execute. -/
theorem c9_empty_chunks_abort (p : RunParams) (h : p.processResult = .ok []) :
    analyze_repo_node p (initialState p) = (.error "RepoAnalyzer failed.", false) ∧
    runGraph p = (.error "RepoAnalyzer failed.", ["analyze_repo"]) := by
  have h1 : analyze_repo_node p (initialState p) = (.error "RepoAnalyzer failed.", false) := by
    rw [analyze_repo_node, h]
    rfl
  have h2 : (analyze_repo_node p (initialState p)).1 = .error "RepoAnalyzer failed." := by
    rw [h1]
  refine ⟨h1, ?_⟩
  simp [runGraph, create_graph, runSeq, h2]

/-- Concrete parameters for the c9 witness: cloning succeeds but no
allow-listed file produced any content. -/
def paramsEmptyChunks : RunParams :=
  { repo_url := "https://github.com/u/empty"
    processResult := .ok []
    loadModel := .ok ()
    embed := fun _ => .ok [0]
    metadataResult := .ok []
    retrieveResult := .ok []
    callResult := .ok rawEmptyEdits }

/-- Witness for c9_empty_chunks_abort at concrete parameters. -/
theorem c9_empty_chunks_abort_witness :
    analyze_repo_node paramsEmptyChunks (initialState paramsEmptyChunks) =
      (.error "RepoAnalyzer failed.", false) ∧
    runGraph paramsEmptyChunks = (.error "RepoAnalyzer failed.", ["analyze_repo"]) :=
  c9_empty_chunks_abort paramsEmptyChunks rfl
